import Mathlib

/-!
Shallow embedding of `internal/storage/sqlite/import_tx.go` from the
`beads` repository: the transactional issue-import routine
`CreateIssueImport`, together with the data model it operates on.

Modelling conventions:
* Go `time.Time` is modelled as `Int` nanoseconds since the epoch;
  `t.IsZero()` is `t = 0`, `a.After b` is `a > b`, and `time.Second`
  is `timeSecond = 1000000000` nanoseconds.
* Go errors are modelled by `GoError`; `fmt.Errorf("...: %w", err)`
  becomes `GoError.wrap "..." err` and a plain `fmt.Errorf` becomes
  `GoError.msg "..."`.
* The external collaborators that `CreateIssueImport` calls
  (`GetCustomStatuses`, `GetCustomTypes`, `ValidateWithCustom`,
  `ComputeContentHash`, the config query, `GenerateIssueID`,
  `insertIssueStrict`, `recordCreatedEvent`, `markDirty`) live outside
  the source file; their behaviour for one call is abstracted into the
  environment record `Env`.
* Go mutates the issue through a pointer and performs writes against
  the transaction; the model returns the final issue value, a trace of
  the collaborator calls made at and after the ID-resolution step, and
  the returned error (`none` for Go's `nil`).
-/

/-- Go's `time.Second`, expressed in the nanosecond representation of
`time.Time` used by this model. -/
def timeSecond : Int := 1000000000

/-- Go errors: a leaf message (`fmt.Errorf` without `%w`) or a wrapping
message around a cause (`fmt.Errorf("ctx: %w", err)`). -/
inductive GoError where
  | msg (s : String)
  | wrap (ctx : String) (cause : GoError)
deriving DecidableEq, Repr

/-- The issue status enumeration of `internal/types` (the type itself is
outside the imported source file; `CreateIssueImport` only compares against
`types.StatusClosed` and `types.StatusTombstone`). -/
inductive Status where
  | StatusOpen
  | StatusInProgress
  | StatusBlocked
  | StatusClosed
  | StatusTombstone
  | StatusCustom (name : String)
deriving DecidableEq, Repr

/-- The fields of `types.Issue` that `CreateIssueImport` reads or writes.
Optional timestamps (`*time.Time` in Go) are `Option Int`. -/
structure Issue where
  ID : String
  Status : Status
  CreatedAt : Int
  UpdatedAt : Int
  ClosedAt : Option Int
  DeletedAt : Option Int
  ContentHash : String
  IDPrefix : String
deriving DecidableEq, Repr

/-- The error returned by `database/sql`'s `Row.Scan` for the config query:
`nil` is `none`; `some .noRows` is `sql.ErrNoRows`; `some (.other e)` is any
other storage error. -/
inductive ScanErr where
  | noRows
  | other (e : GoError)
deriving DecidableEq, Repr

/-- Outcome of `QueryRowContext(... "SELECT value FROM config WHERE key = ?"
..., "issue_prefix").Scan(&configPrefix)`: the error returned by `Scan` and
the string left in the destination variable `configPrefix` afterwards.
`database/sql` writes the destination only when the row was actually
scanned, so on the usual error paths (`ErrNoRows`, a failing query)
`scanned` is the zero value `""`; the model keeps the pair general. -/
structure ConfigRead where
  scanned : String
  err : Option ScanErr
deriving DecidableEq, Repr

/-- A call made by `CreateIssueImport` to a collaborator at or after the
identifier-resolution step, recorded in order in the run's trace. -/
inductive Effect where
  | generateID (pfx : String)
  | validateID (id : String) (pfx : String)
  | insert (issue : Issue)
  | recordEvent (issueID : String) (actor : String)
  | markDirty (issueID : String)
deriving DecidableEq, Repr

/-- One call's view of the external collaborators: the results they would
return, as functions of the arguments `CreateIssueImport` passes them. -/
structure Env where
  getCustomStatuses : Except GoError (List String)
  getCustomTypes : Except GoError (List String)
  validateWithCustom : Issue → List String → List String → Option GoError
  computeContentHash : Issue → String
  now : Int
  configRead : ConfigRead
  generateIssueID : String → Except GoError String
  insertIssueStrict : Issue → Option GoError
  recordCreatedEvent : Issue → String → Option GoError
  markDirty : String → Option GoError

/-- What one call to `CreateIssueImport` leaves behind: the issue value the
caller's pointer holds afterwards, the trace of collaborator calls from the
ID-resolution step on, and the returned error (`none` = success). -/
structure ImportResult where
  issue : Issue
  trace : List Effect
  result : Option GoError
deriving DecidableEq, Repr

/-- Lines 26–32 of `import_tx.go`: `now := time.Now()`, then default each of
`CreatedAt` and `UpdatedAt` to `now` when it is zero-valued. -/
def defaultTimestamps (now : Int) (issue : Issue) : Issue :=
  let issue := if issue.CreatedAt = 0 then { issue with CreatedAt := now } else issue
  if issue.UpdatedAt = 0 then { issue with UpdatedAt := now } else issue

/-- Lines 34–42 of `import_tx.go`: if `Status == Closed` and `ClosedAt` is
nil, set `ClosedAt` to the larger of `CreatedAt`/`UpdatedAt` plus one
second. -/
def fixClosedAt (issue : Issue) : Issue :=
  if issue.Status = Status.StatusClosed ∧ issue.ClosedAt = none then
    let maxTime := if issue.UpdatedAt > issue.CreatedAt then issue.UpdatedAt else issue.CreatedAt
    { issue with ClosedAt := some (maxTime + timeSecond) }
  else issue

/-- Lines 43–51 of `import_tx.go`: if `Status == Tombstone` and `DeletedAt`
is nil, set `DeletedAt` to the larger of `CreatedAt`/`UpdatedAt` plus one
second. -/
def fixDeletedAt (issue : Issue) : Issue :=
  if issue.Status = Status.StatusTombstone ∧ issue.DeletedAt = none then
    let maxTime := if issue.UpdatedAt > issue.CreatedAt then issue.UpdatedAt else issue.CreatedAt
    { issue with DeletedAt := some (maxTime + timeSecond) }
  else issue

/-- Lines 58–61 of `import_tx.go`: compute `ContentHash` when it is empty. -/
def setContentHash (hash : Issue → String) (issue : Issue) : Issue :=
  if issue.ContentHash = "" then { issue with ContentHash := hash issue } else issue

/-- Modelled from the spec: `ValidateIssueIDPrefix` (defined elsewhere in
the `sqlite` package, not in the imported source file). The spec: issue IDs
are formatted `<namespace-prefix>-<sequence-or-key>`, and this check must
"verify the ID's prefix matches the effective prefix; mismatch fails with a
distinct prefix validation error". -/
def ValidateIssueIDPrefix (id pfx : String) : Option GoError :=
  if List.isPrefixOf (pfx ++ "-").data id.data then none
  else some (GoError.msg ("issue ID " ++ id ++ " does not match expected prefix " ++ pfx))

/-- Lines 97–109 of `import_tx.go`: the persistence phase reached once an ID
is assigned and validated — strict insert, then creation event, then dirty
marker, each wrapped on failure, appended to the trace `t` so far. -/
def persistPhase (env : Env) (issue : Issue) (actor : String) (t : List Effect) : ImportResult :=
  match env.insertIssueStrict issue with
  | some e => ⟨issue, t ++ [Effect.insert issue], some (GoError.wrap "failed to insert issue" e)⟩
  | none =>
    match env.recordCreatedEvent issue actor with
    | some e =>
      ⟨issue, t ++ [Effect.insert issue, Effect.recordEvent issue.ID actor],
        some (GoError.wrap "failed to record creation event" e)⟩
    | none =>
      match env.markDirty issue.ID with
      | some e =>
        ⟨issue, t ++ [Effect.insert issue, Effect.recordEvent issue.ID actor, Effect.markDirty issue.ID],
          some (GoError.wrap "failed to mark issue dirty" e)⟩
      | none =>
        ⟨issue, t ++ [Effect.insert issue, Effect.recordEvent issue.ID actor, Effect.markDirty issue.ID],
          none⟩

/-- Lines 72–96 of `import_tx.go`: from the scanned config value, build the
effective prefix (`prefix := configPrefix`, overridden to
`configPrefix + "-" + issue.IDPrefix` when `IDPrefix` is non-empty), then
either generate an ID (when the issue has none) or validate the supplied
one (unless `skipPrefixValidation`), and continue into the persistence
phase. -/
def idPhase (env : Env) (issue : Issue) (actor : String)
    (skipPrefixValidation : Bool) (configValue : String) : ImportResult :=
  let pfx := if issue.IDPrefix ≠ "" then configValue ++ "-" ++ issue.IDPrefix else configValue
  if issue.ID = "" then
    match env.generateIssueID pfx with
    | Except.error e =>
      ⟨issue, [Effect.generateID pfx], some (GoError.wrap "failed to generate issue ID" e)⟩
    | Except.ok generatedID =>
      persistPhase env { issue with ID := generatedID } actor [Effect.generateID pfx]
  else if skipPrefixValidation then
    persistPhase env issue actor []
  else
    match ValidateIssueIDPrefix issue.ID pfx with
    | some e =>
      ⟨issue, [Effect.validateID issue.ID pfx],
        some (GoError.wrap "failed to validate issue ID prefix" e)⟩
    | none => persistPhase env issue actor [Effect.validateID issue.ID pfx]

/-- `CreateIssueImport` of `import_tx.go`, translated step by step: fetch
vocabularies, default timestamps, repair the closed/tombstone invariants,
validate, compute the content hash, read the `issue_prefix` config, build
the effective prefix, generate or prefix-validate the ID, then insert,
record the event and mark dirty. -/
def CreateIssueImport (env : Env) (issue : Issue) (actor : String)
    (skipPrefixValidation : Bool) : ImportResult :=
  match env.getCustomStatuses with
  | Except.error e => ⟨issue, [], some (GoError.wrap "failed to get custom statuses" e)⟩
  | Except.ok customStatuses =>
  match env.getCustomTypes with
  | Except.error e => ⟨issue, [], some (GoError.wrap "failed to get custom types" e)⟩
  | Except.ok customTypes =>
  let issue1 := defaultTimestamps env.now issue
  let issue2 := fixClosedAt issue1
  let issue3 := fixDeletedAt issue2
  match env.validateWithCustom issue3 customStatuses customTypes with
  | some e => ⟨issue3, [], some (GoError.wrap "validation failed" e)⟩
  | none =>
  let issue4 := setContentHash env.computeContentHash issue3
  let cfg := env.configRead
  if cfg.err = some ScanErr.noRows ∨ cfg.scanned = "" then
    ⟨issue4, [], some (GoError.msg "database not initialized: issue_prefix config is missing (run 'bd init --prefix <prefix>' first)")⟩
  else
    match cfg.err with
    | some (ScanErr.other e) => ⟨issue4, [], some (GoError.wrap "failed to get config" e)⟩
    | _ => idPhase env issue4 actor skipPrefixValidation cfg.scanned

/-- The issue value after the two invariant repairs that precede
validation: timestamp defaulting, then the closed and tombstone fixes. -/
def repairIssue (env : Env) (issue : Issue) : Issue :=
  fixDeletedAt (fixClosedAt (defaultTimestamps env.now issue))

/-- The issue value after all the in-place preparation steps that precede
identifier resolution: the repairs of `repairIssue` followed by
content-hash computation. -/
def prepareIssue (env : Env) (issue : Issue) : Issue :=
  setContentHash env.computeContentHash (repairIssue env issue)

/-- The persistence writes in a trace: strict insert, created event and
dirty marker, keeping their order. -/
def writeEffects (t : List Effect) : List Effect :=
  t.filter fun e =>
    match e with
    | Effect.insert _ => true
    | Effect.recordEvent _ _ => true
    | Effect.markDirty _ => true
    | _ => false

section FieldLemmas

@[simp] lemma defaultTimestamps_ID (n : Int) (i : Issue) : (defaultTimestamps n i).ID = i.ID := by
  simp only [defaultTimestamps]; repeat' split
  all_goals rfl

@[simp] lemma defaultTimestamps_Status (n : Int) (i : Issue) :
    (defaultTimestamps n i).Status = i.Status := by
  simp only [defaultTimestamps]; repeat' split
  all_goals rfl

@[simp] lemma defaultTimestamps_ClosedAt (n : Int) (i : Issue) :
    (defaultTimestamps n i).ClosedAt = i.ClosedAt := by
  simp only [defaultTimestamps]; repeat' split
  all_goals rfl

@[simp] lemma defaultTimestamps_DeletedAt (n : Int) (i : Issue) :
    (defaultTimestamps n i).DeletedAt = i.DeletedAt := by
  simp only [defaultTimestamps]; repeat' split
  all_goals rfl

@[simp] lemma defaultTimestamps_ContentHash (n : Int) (i : Issue) :
    (defaultTimestamps n i).ContentHash = i.ContentHash := by
  simp only [defaultTimestamps]; repeat' split
  all_goals rfl

@[simp] lemma defaultTimestamps_IDPrefix (n : Int) (i : Issue) :
    (defaultTimestamps n i).IDPrefix = i.IDPrefix := by
  simp only [defaultTimestamps]; repeat' split
  all_goals rfl

@[simp] lemma fixClosedAt_ID (i : Issue) : (fixClosedAt i).ID = i.ID := by
  simp only [fixClosedAt]; split <;> rfl

@[simp] lemma fixClosedAt_Status (i : Issue) : (fixClosedAt i).Status = i.Status := by
  simp only [fixClosedAt]; split <;> rfl

@[simp] lemma fixClosedAt_CreatedAt (i : Issue) : (fixClosedAt i).CreatedAt = i.CreatedAt := by
  simp only [fixClosedAt]; split <;> rfl

@[simp] lemma fixClosedAt_UpdatedAt (i : Issue) : (fixClosedAt i).UpdatedAt = i.UpdatedAt := by
  simp only [fixClosedAt]; split <;> rfl

@[simp] lemma fixClosedAt_DeletedAt (i : Issue) : (fixClosedAt i).DeletedAt = i.DeletedAt := by
  simp only [fixClosedAt]; split <;> rfl

@[simp] lemma fixClosedAt_ContentHash (i : Issue) : (fixClosedAt i).ContentHash = i.ContentHash := by
  simp only [fixClosedAt]; split <;> rfl

@[simp] lemma fixClosedAt_IDPrefix (i : Issue) : (fixClosedAt i).IDPrefix = i.IDPrefix := by
  simp only [fixClosedAt]; split <;> rfl

@[simp] lemma fixDeletedAt_ID (i : Issue) : (fixDeletedAt i).ID = i.ID := by
  simp only [fixDeletedAt]; split <;> rfl

@[simp] lemma fixDeletedAt_Status (i : Issue) : (fixDeletedAt i).Status = i.Status := by
  simp only [fixDeletedAt]; split <;> rfl

@[simp] lemma fixDeletedAt_CreatedAt (i : Issue) : (fixDeletedAt i).CreatedAt = i.CreatedAt := by
  simp only [fixDeletedAt]; split <;> rfl

@[simp] lemma fixDeletedAt_UpdatedAt (i : Issue) : (fixDeletedAt i).UpdatedAt = i.UpdatedAt := by
  simp only [fixDeletedAt]; split <;> rfl

@[simp] lemma fixDeletedAt_ClosedAt (i : Issue) : (fixDeletedAt i).ClosedAt = i.ClosedAt := by
  simp only [fixDeletedAt]; split <;> rfl

@[simp] lemma fixDeletedAt_ContentHash (i : Issue) : (fixDeletedAt i).ContentHash = i.ContentHash := by
  simp only [fixDeletedAt]; split <;> rfl

@[simp] lemma fixDeletedAt_IDPrefix (i : Issue) : (fixDeletedAt i).IDPrefix = i.IDPrefix := by
  simp only [fixDeletedAt]; split <;> rfl

@[simp] lemma setContentHash_ID (f : Issue → String) (i : Issue) :
    (setContentHash f i).ID = i.ID := by
  simp only [setContentHash]; split <;> rfl

@[simp] lemma setContentHash_Status (f : Issue → String) (i : Issue) :
    (setContentHash f i).Status = i.Status := by
  simp only [setContentHash]; split <;> rfl

@[simp] lemma setContentHash_CreatedAt (f : Issue → String) (i : Issue) :
    (setContentHash f i).CreatedAt = i.CreatedAt := by
  simp only [setContentHash]; split <;> rfl

@[simp] lemma setContentHash_UpdatedAt (f : Issue → String) (i : Issue) :
    (setContentHash f i).UpdatedAt = i.UpdatedAt := by
  simp only [setContentHash]; split <;> rfl

@[simp] lemma setContentHash_ClosedAt (f : Issue → String) (i : Issue) :
    (setContentHash f i).ClosedAt = i.ClosedAt := by
  simp only [setContentHash]; split <;> rfl

@[simp] lemma setContentHash_DeletedAt (f : Issue → String) (i : Issue) :
    (setContentHash f i).DeletedAt = i.DeletedAt := by
  simp only [setContentHash]; split <;> rfl

@[simp] lemma setContentHash_IDPrefix (f : Issue → String) (i : Issue) :
    (setContentHash f i).IDPrefix = i.IDPrefix := by
  simp only [setContentHash]; split <;> rfl

@[simp] lemma prepareIssue_ID (env : Env) (i : Issue) : (prepareIssue env i).ID = i.ID := by
  simp [prepareIssue, repairIssue]

@[simp] lemma prepareIssue_Status (env : Env) (i : Issue) :
    (prepareIssue env i).Status = i.Status := by
  simp [prepareIssue, repairIssue]

@[simp] lemma prepareIssue_IDPrefix (env : Env) (i : Issue) :
    (prepareIssue env i).IDPrefix = i.IDPrefix := by
  simp [prepareIssue, repairIssue]

end FieldLemmas

section PhaseLemmas

lemma persistPhase_issue (env : Env) (i : Issue) (a : String) (t : List Effect) :
    (persistPhase env i a t).issue = i := by
  simp only [persistPhase]
  rcases env.insertIssueStrict i with _ | e
  · rcases env.recordCreatedEvent i a with _ | e
    · rcases env.markDirty i.ID with _ | e <;> rfl
    · rfl
  · rfl

lemma idPhase_issue (env : Env) (i : Issue) (a : String) (s : Bool) (v : String) :
    (idPhase env i a s v).issue = i ∨
      ∃ g, env.generateIssueID (if i.IDPrefix ≠ "" then v ++ "-" ++ i.IDPrefix else v) = Except.ok g ∧
        (idPhase env i a s v).issue = { i with ID := g } := by
  simp only [idPhase]
  by_cases hid : i.ID = ""
  · simp only [hid, if_true, ite_true]
    rcases hg : env.generateIssueID (if i.IDPrefix ≠ "" then v ++ "-" ++ i.IDPrefix else v) with e | g
    · simp [hg]
    · simp only [hg]
      exact Or.inr ⟨g, rfl, persistPhase_issue env { i with ID := g } a _⟩
  · simp only [hid, if_false, ite_false]
    split
    · exact Or.inl (persistPhase_issue env i a _)
    · split
      · exact Or.inl rfl
      · exact Or.inl (persistPhase_issue env i a _)

lemma persistPhase_trace_mem_mono (env : Env) (i : Issue) (a : String) (t : List Effect)
    (x : Effect) (hx : x ∈ t) : x ∈ (persistPhase env i a t).trace := by
  simp only [persistPhase]
  rcases env.insertIssueStrict i with _ | e
  · rcases env.recordCreatedEvent i a with _ | e
    · rcases env.markDirty i.ID with _ | e <;> simp [hx]
    · simp [hx]
  · simp [hx]

lemma persistPhase_insert_mem (env : Env) (i : Issue) (a : String) (t : List Effect) :
    Effect.insert i ∈ (persistPhase env i a t).trace := by
  simp only [persistPhase]
  rcases env.insertIssueStrict i with _ | e
  · rcases env.recordCreatedEvent i a with _ | e
    · rcases env.markDirty i.ID with _ | e <;> simp
    · simp
  · simp

lemma persistPhase_no_validate (env : Env) (i : Issue) (a : String) (t : List Effect)
    (id p : String) (hx : Effect.validateID id p ∉ t) :
    Effect.validateID id p ∉ (persistPhase env i a t).trace := by
  simp only [persistPhase]
  rcases env.insertIssueStrict i with _ | e
  · rcases env.recordCreatedEvent i a with _ | e
    · rcases env.markDirty i.ID with _ | e <;> simp [hx]
    · simp [hx]
  · simp [hx]

lemma persistPhase_result_ne_validate (env : Env) (i : Issue) (a : String) (t : List Effect)
    (e : GoError) :
    (persistPhase env i a t).result ≠ some (GoError.wrap "failed to validate issue ID prefix" e) := by
  simp only [persistPhase]
  rcases env.insertIssueStrict i with _ | e1
  · rcases env.recordCreatedEvent i a with _ | e2
    · rcases env.markDirty i.ID with _ | e3 <;> simp
    · simp
  · simp

lemma writeEffects_append (s t : List Effect) :
    writeEffects (s ++ t) = writeEffects s ++ writeEffects t := by
  simp [writeEffects, List.filter_append]

@[simp] lemma writeEffects_nil : writeEffects [] = [] := rfl

@[simp] lemma writeEffects_cons_insert (i : Issue) (t : List Effect) :
    writeEffects (Effect.insert i :: t) = Effect.insert i :: writeEffects t := by
  simp [writeEffects]

@[simp] lemma writeEffects_cons_recordEvent (id a : String) (t : List Effect) :
    writeEffects (Effect.recordEvent id a :: t) = Effect.recordEvent id a :: writeEffects t := by
  simp [writeEffects]

@[simp] lemma writeEffects_cons_markDirty (id : String) (t : List Effect) :
    writeEffects (Effect.markDirty id :: t) = Effect.markDirty id :: writeEffects t := by
  simp [writeEffects]

@[simp] lemma writeEffects_cons_generateID (p : String) (t : List Effect) :
    writeEffects (Effect.generateID p :: t) = writeEffects t := by
  simp [writeEffects]

@[simp] lemma writeEffects_cons_validateID (id p : String) (t : List Effect) :
    writeEffects (Effect.validateID id p :: t) = writeEffects t := by
  simp [writeEffects]

lemma persistPhase_cases (env : Env) (i : Issue) (a : String) (t : List Effect)
    (htw : writeEffects t = []) :
    (∀ e, env.insertIssueStrict i = some e →
      (persistPhase env i a t).result = some (GoError.wrap "failed to insert issue" e) ∧
      writeEffects (persistPhase env i a t).trace = [Effect.insert i]) ∧
    (env.insertIssueStrict i = none → ∀ e, env.recordCreatedEvent i a = some e →
      (persistPhase env i a t).result = some (GoError.wrap "failed to record creation event" e) ∧
      writeEffects (persistPhase env i a t).trace = [Effect.insert i, Effect.recordEvent i.ID a]) ∧
    (env.insertIssueStrict i = none → env.recordCreatedEvent i a = none →
      ∀ e, env.markDirty i.ID = some e →
      (persistPhase env i a t).result = some (GoError.wrap "failed to mark issue dirty" e) ∧
      writeEffects (persistPhase env i a t).trace =
        [Effect.insert i, Effect.recordEvent i.ID a, Effect.markDirty i.ID]) ∧
    (env.insertIssueStrict i = none → env.recordCreatedEvent i a = none →
      env.markDirty i.ID = none →
      (persistPhase env i a t).result = none ∧
      writeEffects (persistPhase env i a t).trace =
        [Effect.insert i, Effect.recordEvent i.ID a, Effect.markDirty i.ID]) := by
  refine ⟨?_, ?_, ?_, ?_⟩
  · intro e he
    simp [persistPhase, he, writeEffects_append, htw]
  · intro hins e he
    simp [persistPhase, hins, he, writeEffects_append, htw]
  · intro hins hrec e he
    simp [persistPhase, hins, hrec, he, writeEffects_append, htw]
  · intro hins hrec hmark
    simp [persistPhase, hins, hrec, hmark, writeEffects_append, htw]

end PhaseLemmas

section RunLemmas

lemma ite_max (a b : Int) : (if b > a then b else a) = max a b := by
  split <;> omega

lemma defaultTimestamps_CreatedAt (n : Int) (i : Issue) :
    (defaultTimestamps n i).CreatedAt = if i.CreatedAt = 0 then n else i.CreatedAt := by
  simp only [defaultTimestamps]
  repeat' split
  all_goals rfl

lemma defaultTimestamps_UpdatedAt (n : Int) (i : Issue) :
    (defaultTimestamps n i).UpdatedAt = if i.UpdatedAt = 0 then n else i.UpdatedAt := by
  simp only [defaultTimestamps]
  repeat' split
  all_goals rfl

lemma fixClosedAt_sets (i : Issue) (hst : i.Status = Status.StatusClosed) (hca : i.ClosedAt = none) :
    (fixClosedAt i).ClosedAt = some (max i.CreatedAt i.UpdatedAt + timeSecond) := by
  simp [fixClosedAt, hst, hca, ite_max]

lemma fixDeletedAt_sets (i : Issue) (hst : i.Status = Status.StatusTombstone) (hda : i.DeletedAt = none) :
    (fixDeletedAt i).DeletedAt = some (max i.CreatedAt i.UpdatedAt + timeSecond) := by
  simp [fixDeletedAt, hst, hda, ite_max]

lemma reach_idPhase (env : Env) (issue : Issue) (actor : String) (skip : Bool) (ss ts : List String)
    (hs : env.getCustomStatuses = Except.ok ss) (ht : env.getCustomTypes = Except.ok ts)
    (hv : env.validateWithCustom (repairIssue env issue) ss ts = none)
    (hce : env.configRead.err = none) (hcs : env.configRead.scanned ≠ "") :
    CreateIssueImport env issue actor skip =
      idPhase env (prepareIssue env issue) actor skip env.configRead.scanned := by
  rw [repairIssue] at hv
  simp only [CreateIssueImport, prepareIssue, repairIssue, hs, ht, hv, hce, hcs]
  simp

lemma success_getCustomStatuses (env : Env) (issue : Issue) (actor : String) (skip : Bool)
    (hr : (CreateIssueImport env issue actor skip).result = none) :
    ∃ ss, env.getCustomStatuses = Except.ok ss := by
  rcases hs : env.getCustomStatuses with e | ss
  · simp [CreateIssueImport, hs] at hr
  · exact ⟨ss, rfl⟩

lemma success_getCustomTypes (env : Env) (issue : Issue) (actor : String) (skip : Bool)
    (hr : (CreateIssueImport env issue actor skip).result = none) :
    ∃ ts, env.getCustomTypes = Except.ok ts := by
  rcases ht : env.getCustomTypes with e | ts
  · rcases success_getCustomStatuses env issue actor skip hr with ⟨ss, hs⟩
    simp [CreateIssueImport, hs, ht] at hr
  · exact ⟨ts, rfl⟩

lemma success_validate (env : Env) (issue : Issue) (actor : String) (skip : Bool)
    (ss ts : List String)
    (hs : env.getCustomStatuses = Except.ok ss) (ht : env.getCustomTypes = Except.ok ts)
    (hr : (CreateIssueImport env issue actor skip).result = none) :
    env.validateWithCustom (repairIssue env issue) ss ts = none := by
  rcases hv : env.validateWithCustom (repairIssue env issue) ss ts with _ | e
  · rfl
  · rw [repairIssue] at hv
    simp [CreateIssueImport, hs, ht, hv] at hr

lemma success_config (env : Env) (issue : Issue) (actor : String) (skip : Bool)
    (ss ts : List String)
    (hs : env.getCustomStatuses = Except.ok ss) (ht : env.getCustomTypes = Except.ok ts)
    (hv : env.validateWithCustom (repairIssue env issue) ss ts = none)
    (hr : (CreateIssueImport env issue actor skip).result = none) :
    env.configRead.err = none ∧ env.configRead.scanned ≠ "" := by
  rw [repairIssue] at hv
  have hcs : env.configRead.scanned ≠ "" := by
    intro h2
    simp [CreateIssueImport, hs, ht, hv, h2] at hr
  refine ⟨?_, hcs⟩
  rcases he : env.configRead.err with _ | se
  · rfl
  · cases se with
    | noRows => simp [CreateIssueImport, hs, ht, hv, he] at hr
    | other e => simp [CreateIssueImport, hs, ht, hv, he, hcs] at hr

lemma issue_shape_after_validation (env : Env) (issue : Issue) (actor : String) (skip : Bool)
    (ss ts : List String)
    (hs : env.getCustomStatuses = Except.ok ss) (ht : env.getCustomTypes = Except.ok ts)
    (hv : env.validateWithCustom (repairIssue env issue) ss ts = none) :
    (CreateIssueImport env issue actor skip).issue = prepareIssue env issue ∨
      ∃ g, env.generateIssueID
          (if (prepareIssue env issue).IDPrefix ≠ "" then
            env.configRead.scanned ++ "-" ++ (prepareIssue env issue).IDPrefix
          else env.configRead.scanned) = Except.ok g ∧
        (CreateIssueImport env issue actor skip).issue = { prepareIssue env issue with ID := g } := by
  by_cases hcfg : env.configRead.err = some ScanErr.noRows ∨ env.configRead.scanned = ""
  · rw [repairIssue] at hv
    rcases hcfg with h1 | h2
    · left
      simp [CreateIssueImport, prepareIssue, repairIssue, hs, ht, hv, h1]
    · left
      simp [CreateIssueImport, prepareIssue, repairIssue, hs, ht, hv, h2]
  · push_neg at hcfg
    obtain ⟨hne, hcs⟩ := hcfg
    rcases he : env.configRead.err with _ | se
    · rw [reach_idPhase env issue actor skip ss ts hs ht hv he hcs]
      exact idPhase_issue env (prepareIssue env issue) actor skip env.configRead.scanned
    · cases se with
      | noRows => exact absurd he hne
      | other e =>
        left
        rw [repairIssue] at hv
        simp [CreateIssueImport, prepareIssue, repairIssue, hs, ht, hv, he, hcs]

lemma issue_shape (env : Env) (issue : Issue) (actor : String) (skip : Bool)
    (ss ts : List String)
    (hs : env.getCustomStatuses = Except.ok ss) (ht : env.getCustomTypes = Except.ok ts) :
    (CreateIssueImport env issue actor skip).issue = repairIssue env issue ∨
      (CreateIssueImport env issue actor skip).issue = prepareIssue env issue ∨
      ∃ g, (CreateIssueImport env issue actor skip).issue = { prepareIssue env issue with ID := g } := by
  rcases hv : env.validateWithCustom (repairIssue env issue) ss ts with _ | e
  · rcases issue_shape_after_validation env issue actor skip ss ts hs ht hv with h | ⟨g, _, h⟩
    · exact Or.inr (Or.inl h)
    · exact Or.inr (Or.inr ⟨g, h⟩)
  · left
    rw [repairIssue] at hv
    simp [CreateIssueImport, repairIssue, hs, ht, hv]

lemma final_issue_explicit (env : Env) (issue : Issue) (actor : String) (skip : Bool)
    (ss ts : List String)
    (hs : env.getCustomStatuses = Except.ok ss) (ht : env.getCustomTypes = Except.ok ts)
    (hv : env.validateWithCustom (repairIssue env issue) ss ts = none)
    (hid : issue.ID ≠ "") :
    (CreateIssueImport env issue actor skip).issue = prepareIssue env issue := by
  by_cases hcfg : env.configRead.err = some ScanErr.noRows ∨ env.configRead.scanned = ""
  · have hv2 := hv
    rw [repairIssue] at hv2
    rcases hcfg with h1 | h2
    · simp [CreateIssueImport, prepareIssue, repairIssue, hs, ht, hv2, h1]
    · simp [CreateIssueImport, prepareIssue, repairIssue, hs, ht, hv2, h2]
  · push_neg at hcfg
    obtain ⟨hne, hcs⟩ := hcfg
    rcases he : env.configRead.err with _ | se
    · rw [reach_idPhase env issue actor skip ss ts hs ht hv he hcs]
      simp only [idPhase, prepareIssue_ID, prepareIssue_IDPrefix]
      rw [if_neg hid]
      rcases hb : skip with _ | _
      · simp only [Bool.false_eq_true, if_false]
        rcases hvp : ValidateIssueIDPrefix issue.ID
            (if issue.IDPrefix ≠ "" then env.configRead.scanned ++ "-" ++ issue.IDPrefix
              else env.configRead.scanned) with _ | e
        · simp only [hvp]
          exact persistPhase_issue env (prepareIssue env issue) actor _
        · simp [hvp]
      · simp only [if_true, ite_true]
        exact persistPhase_issue env (prepareIssue env issue) actor []
    · cases se with
      | noRows => exact absurd he hne
      | other e =>
        have hv2 := hv
        rw [repairIssue] at hv2
        simp [CreateIssueImport, prepareIssue, repairIssue, hs, ht, hv2, he, hcs]

lemma final_issue_config_failure (env : Env) (issue : Issue) (actor : String) (skip : Bool)
    (ss ts : List String)
    (hs : env.getCustomStatuses = Except.ok ss) (ht : env.getCustomTypes = Except.ok ts)
    (hv : env.validateWithCustom (repairIssue env issue) ss ts = none)
    (hcfg : env.configRead.err = some ScanErr.noRows ∨ env.configRead.scanned = "" ∨
      ∃ e, env.configRead.err = some (ScanErr.other e)) :
    (CreateIssueImport env issue actor skip).issue = prepareIssue env issue := by
  have hv2 := hv
  rw [repairIssue] at hv2
  rcases hcfg with h1 | h2 | ⟨e, h3⟩
  · simp [CreateIssueImport, prepareIssue, repairIssue, hs, ht, hv2, h1]
  · simp [CreateIssueImport, prepareIssue, repairIssue, hs, ht, hv2, h2]
  · by_cases hsc : env.configRead.scanned = ""
    · simp [CreateIssueImport, prepareIssue, repairIssue, hs, ht, hv2, hsc]
    · simp [CreateIssueImport, prepareIssue, repairIssue, hs, ht, hv2, h3, hsc]

lemma final_issue_generated (env : Env) (issue : Issue) (actor : String) (skip : Bool)
    (ss ts : List String) (g : String)
    (hs : env.getCustomStatuses = Except.ok ss) (ht : env.getCustomTypes = Except.ok ts)
    (hv : env.validateWithCustom (repairIssue env issue) ss ts = none)
    (hce : env.configRead.err = none) (hcs : env.configRead.scanned ≠ "")
    (hid : issue.ID = "")
    (hg : env.generateIssueID (if issue.IDPrefix ≠ "" then
        env.configRead.scanned ++ "-" ++ issue.IDPrefix else env.configRead.scanned) =
      Except.ok g) :
    (CreateIssueImport env issue actor skip).issue = { prepareIssue env issue with ID := g } := by
  rw [reach_idPhase env issue actor skip ss ts hs ht hv hce hcs]
  simp only [idPhase, prepareIssue_ID, prepareIssue_IDPrefix]
  rw [if_pos hid]
  simp only [hg]
  simp [persistPhase_issue]

lemma final_issue_genfail (env : Env) (issue : Issue) (actor : String) (skip : Bool)
    (ss ts : List String) (e : GoError)
    (hs : env.getCustomStatuses = Except.ok ss) (ht : env.getCustomTypes = Except.ok ts)
    (hv : env.validateWithCustom (repairIssue env issue) ss ts = none)
    (hce : env.configRead.err = none) (hcs : env.configRead.scanned ≠ "")
    (hid : issue.ID = "")
    (hg : env.generateIssueID (if issue.IDPrefix ≠ "" then
        env.configRead.scanned ++ "-" ++ issue.IDPrefix else env.configRead.scanned) =
      Except.error e) :
    (CreateIssueImport env issue actor skip).issue = prepareIssue env issue := by
  rw [reach_idPhase env issue actor skip ss ts hs ht hv hce hcs]
  simp only [idPhase, prepareIssue_ID, prepareIssue_IDPrefix]
  rw [if_pos hid]
  simp only [hg]

end RunLemmas

section ConcreteRuns

/-- An environment in which every collaborator succeeds: empty custom
vocabularies, validation passing, base namespace `"bd"`, a generator that
appends `"-1"`, and persistence writes that all succeed. -/
def okEnv : Env where
  getCustomStatuses := Except.ok []
  getCustomTypes := Except.ok []
  validateWithCustom := fun _ _ _ => none
  computeContentHash := fun _ => "hash0"
  now := 100
  configRead := ⟨"bd", none⟩
  generateIssueID := fun p => Except.ok (p ++ "-1")
  insertIssueStrict := fun _ => none
  recordCreatedEvent := fun _ _ => none
  markDirty := fun _ => none

/-- A closed issue arriving without `ClosedAt` and with historical
timestamps. -/
def issueClosed : Issue := ⟨"", Status.StatusClosed, 5, 7, none, none, "", ""⟩

/-- A tombstoned issue arriving without `DeletedAt`. -/
def issueTombstone : Issue := ⟨"", Status.StatusTombstone, 9, 4, none, none, "", ""⟩

end ConcreteRuns

/-- C1: for every issue passed to `CreateIssueImport` with `Status = Closed`
and `ClosedAt` unset, after a successful call `ClosedAt` equals
`max(CreatedAt, UpdatedAt)` plus exactly one second, where `CreatedAt` and
`UpdatedAt` are the values after any zero-value defaulting (the final
values carried by the issue). -/
theorem createIssueImport_closedAt_invariant (env : Env) (issue : Issue) (actor : String)
    (skip : Bool) (hst : issue.Status = Status.StatusClosed) (hca : issue.ClosedAt = none)
    (hr : (CreateIssueImport env issue actor skip).result = none) :
    (CreateIssueImport env issue actor skip).issue.ClosedAt =
      some (max (CreateIssueImport env issue actor skip).issue.CreatedAt
        (CreateIssueImport env issue actor skip).issue.UpdatedAt + timeSecond) := by
  obtain ⟨ss, hs⟩ := success_getCustomStatuses env issue actor skip hr
  obtain ⟨ts, ht⟩ := success_getCustomTypes env issue actor skip hr
  have hv := success_validate env issue actor skip ss ts hs ht hr
  have hshape := issue_shape_after_validation env issue actor skip ss ts hs ht hv
  have hfields : (CreateIssueImport env issue actor skip).issue.ClosedAt = (prepareIssue env issue).ClosedAt ∧
      (CreateIssueImport env issue actor skip).issue.CreatedAt = (prepareIssue env issue).CreatedAt ∧
      (CreateIssueImport env issue actor skip).issue.UpdatedAt = (prepareIssue env issue).UpdatedAt := by
    rcases hshape with h | ⟨g, _, h⟩ <;> rw [h] <;> exact ⟨rfl, rfl, rfl⟩
  obtain ⟨h1, h2, h3⟩ := hfields
  rw [h1, h2, h3]
  simp only [prepareIssue, repairIssue, setContentHash_ClosedAt, setContentHash_CreatedAt,
    setContentHash_UpdatedAt, fixDeletedAt_ClosedAt, fixDeletedAt_CreatedAt, fixDeletedAt_UpdatedAt,
    fixClosedAt_CreatedAt, fixClosedAt_UpdatedAt]
  exact fixClosedAt_sets (defaultTimestamps env.now issue) (by simp [hst]) (by simp [hca])

/-- Witness for C1: a concrete closed issue imported through the
all-succeeding environment. -/
theorem createIssueImport_closedAt_invariant_witness :
    (CreateIssueImport okEnv issueClosed "alice" false).issue.ClosedAt =
      some (max (CreateIssueImport okEnv issueClosed "alice" false).issue.CreatedAt
        (CreateIssueImport okEnv issueClosed "alice" false).issue.UpdatedAt + timeSecond) :=
  createIssueImport_closedAt_invariant okEnv issueClosed "alice" false rfl rfl (by decide)

/-- C9: for every issue passed to `CreateIssueImport` with
`Status = Tombstone` and `DeletedAt` unset, after a successful call
`DeletedAt` equals `max(CreatedAt, UpdatedAt)` plus exactly one second,
where `CreatedAt` and `UpdatedAt` are the values after any zero-value
defaulting. -/
theorem createIssueImport_deletedAt_invariant (env : Env) (issue : Issue) (actor : String)
    (skip : Bool) (hst : issue.Status = Status.StatusTombstone) (hda : issue.DeletedAt = none)
    (hr : (CreateIssueImport env issue actor skip).result = none) :
    (CreateIssueImport env issue actor skip).issue.DeletedAt =
      some (max (CreateIssueImport env issue actor skip).issue.CreatedAt
        (CreateIssueImport env issue actor skip).issue.UpdatedAt + timeSecond) := by
  obtain ⟨ss, hs⟩ := success_getCustomStatuses env issue actor skip hr
  obtain ⟨ts, ht⟩ := success_getCustomTypes env issue actor skip hr
  have hv := success_validate env issue actor skip ss ts hs ht hr
  have hshape := issue_shape_after_validation env issue actor skip ss ts hs ht hv
  have hfields : (CreateIssueImport env issue actor skip).issue.DeletedAt = (prepareIssue env issue).DeletedAt ∧
      (CreateIssueImport env issue actor skip).issue.CreatedAt = (prepareIssue env issue).CreatedAt ∧
      (CreateIssueImport env issue actor skip).issue.UpdatedAt = (prepareIssue env issue).UpdatedAt := by
    rcases hshape with h | ⟨g, _, h⟩ <;> rw [h] <;> exact ⟨rfl, rfl, rfl⟩
  obtain ⟨h1, h2, h3⟩ := hfields
  rw [h1, h2, h3]
  simp only [prepareIssue, repairIssue, setContentHash_DeletedAt, setContentHash_CreatedAt,
    setContentHash_UpdatedAt, fixDeletedAt_CreatedAt, fixDeletedAt_UpdatedAt]
  rw [fixDeletedAt_sets (fixClosedAt (defaultTimestamps env.now issue)) (by simp [hst]) (by simp [hda])]

/-- Witness for C9: a concrete tombstoned issue imported through the
all-succeeding environment. -/
theorem createIssueImport_deletedAt_invariant_witness :
    (CreateIssueImport okEnv issueTombstone "alice" false).issue.DeletedAt =
      some (max (CreateIssueImport okEnv issueTombstone "alice" false).issue.CreatedAt
        (CreateIssueImport okEnv issueTombstone "alice" false).issue.UpdatedAt + timeSecond) :=
  createIssueImport_deletedAt_invariant okEnv issueTombstone "alice" false rfl rfl (by decide)

/-- An issue carrying a historical `UpdatedAt` but a zero `CreatedAt`:
the input refuting C2 as stated. -/
def issueHistorical : Issue := ⟨"", Status.StatusOpen, 0, 5, none, none, "", ""⟩

/-- Counterexample to C2 as stated: `issueHistorical` carries a non-zero
`UpdatedAt`, yet after the call `CreatedAt` is not preserved verbatim — the
code defaulted it to the current instant even though the two timestamps
were not both zero-valued. -/
theorem createIssueImport_timestamps_claim_cex :
    issueHistorical.UpdatedAt ≠ 0 ∧
    (CreateIssueImport okEnv issueHistorical "alice" false).issue.CreatedAt ≠
      issueHistorical.CreatedAt := by decide

/-- C2 (amended): `CreatedAt` and `UpdatedAt` are each independently
defaulted to the current instant exactly when that field alone is
zero-valued; a field that carries a non-zero historical timestamp is
preserved verbatim (the vocabulary fetches must succeed for execution to
reach the timestamp step). -/
theorem createIssueImport_timestamps_defaulted_independently (env : Env) (issue : Issue)
    (actor : String) (skip : Bool) (ss ts : List String)
    (hs : env.getCustomStatuses = Except.ok ss) (ht : env.getCustomTypes = Except.ok ts) :
    (CreateIssueImport env issue actor skip).issue.CreatedAt =
      (if issue.CreatedAt = 0 then env.now else issue.CreatedAt) ∧
    (CreateIssueImport env issue actor skip).issue.UpdatedAt =
      (if issue.UpdatedAt = 0 then env.now else issue.UpdatedAt) := by
  have hshape := issue_shape env issue actor skip ss ts hs ht
  have hfields : (CreateIssueImport env issue actor skip).issue.CreatedAt = (repairIssue env issue).CreatedAt ∧
      (CreateIssueImport env issue actor skip).issue.UpdatedAt = (repairIssue env issue).UpdatedAt := by
    rcases hshape with h | h | ⟨g, h⟩ <;> rw [h] <;> constructor <;> simp [prepareIssue]
  obtain ⟨h1, h2⟩ := hfields
  rw [h1, h2]
  constructor <;> simp [repairIssue, defaultTimestamps_CreatedAt, defaultTimestamps_UpdatedAt]

/-- Witness for the amended C2: at the concrete input of the
counterexample, `CreatedAt` is defaulted while `UpdatedAt` is kept. -/
theorem createIssueImport_timestamps_defaulted_independently_witness :
    (CreateIssueImport okEnv issueHistorical "alice" false).issue.CreatedAt =
      (if issueHistorical.CreatedAt = 0 then okEnv.now else issueHistorical.CreatedAt) ∧
    (CreateIssueImport okEnv issueHistorical "alice" false).issue.UpdatedAt =
      (if issueHistorical.UpdatedAt = 0 then okEnv.now else issueHistorical.UpdatedAt) :=
  createIssueImport_timestamps_defaulted_independently okEnv issueHistorical "alice" false
    [] [] rfl rfl

/-- C3: when the `issue_prefix` configuration key is absent (`sql.ErrNoRows`)
or its scanned value is empty, the call performs no collaborator call of
the identifier or persistence phases (in particular no insert, no audit
event and no dirty marker), always fails, and — once execution reaches the
config read, i.e. the vocabulary fetches and the validation succeeded —
fails with exactly the store-not-initialized error. -/
theorem createIssueImport_uninitialized_store (env : Env) (issue : Issue) (actor : String)
    (skip : Bool)
    (hcfg : env.configRead.err = some ScanErr.noRows ∨ env.configRead.scanned = "") :
    (CreateIssueImport env issue actor skip).trace = [] ∧
    (CreateIssueImport env issue actor skip).result ≠ none ∧
    (∀ ss ts, env.getCustomStatuses = Except.ok ss → env.getCustomTypes = Except.ok ts →
      env.validateWithCustom (repairIssue env issue) ss ts = none →
      (CreateIssueImport env issue actor skip).result =
        some (GoError.msg "database not initialized: issue_prefix config is missing (run 'bd init --prefix <prefix>' first)")) := by
  rcases hs : env.getCustomStatuses with e | ss
  · refine ⟨by simp [CreateIssueImport, hs], by simp [CreateIssueImport, hs], ?_⟩
    intro ss2 ts2 hss _ _
    cases hss
  · rcases ht : env.getCustomTypes with e | ts
    · refine ⟨by simp [CreateIssueImport, hs, ht], by simp [CreateIssueImport, hs, ht], ?_⟩
      intro ss2 ts2 _ hts _
      cases hts
    · rcases hv : env.validateWithCustom (repairIssue env issue) ss ts with _ | e
      · have hv2 := hv
        rw [repairIssue] at hv2
        rcases hcfg with h1 | h2
        · exact ⟨by simp [CreateIssueImport, hs, ht, hv2, h1],
            by simp [CreateIssueImport, hs, ht, hv2, h1],
            fun _ _ _ _ _ => by simp [CreateIssueImport, hs, ht, hv2, h1]⟩
        · exact ⟨by simp [CreateIssueImport, hs, ht, hv2, h2],
            by simp [CreateIssueImport, hs, ht, hv2, h2],
            fun _ _ _ _ _ => by simp [CreateIssueImport, hs, ht, hv2, h2]⟩
      · have hv2 := hv
        rw [repairIssue] at hv2
        refine ⟨by simp [CreateIssueImport, hs, ht, hv2], by simp [CreateIssueImport, hs, ht, hv2], ?_⟩
        intro ss2 ts2 hss hts hvv
        cases hss
        cases hts
        rw [hvv] at hv
        cases hv

/-- An environment whose config table has no `issue_prefix` row. -/
def noCfgEnv : Env := { okEnv with configRead := ⟨"", some ScanErr.noRows⟩ }

/-- Witness for C3: the missing-config environment on a concrete issue. -/
theorem createIssueImport_uninitialized_store_witness :
    (CreateIssueImport noCfgEnv issueClosed "alice" false).trace = [] ∧
    (CreateIssueImport noCfgEnv issueClosed "alice" false).result ≠ none ∧
    (∀ ss ts, noCfgEnv.getCustomStatuses = Except.ok ss → noCfgEnv.getCustomTypes = Except.ok ts →
      noCfgEnv.validateWithCustom (repairIssue noCfgEnv issueClosed) ss ts = none →
      (CreateIssueImport noCfgEnv issueClosed "alice" false).result =
        some (GoError.msg "database not initialized: issue_prefix config is missing (run 'bd init --prefix <prefix>' first)")) :=
  createIssueImport_uninitialized_store noCfgEnv issueClosed "alice" false (Or.inl rfl)

/-- An environment whose config read fails with a storage error other than
`ErrNoRows`; the query failed, so `Scan` left the destination empty. -/
def cfgErrEnv : Env :=
  { okEnv with configRead := ⟨"", some (ScanErr.other (GoError.msg "disk I/O error"))⟩ }

/-- Counterexample to C8 as stated: the config read fails with a storage
error other than absence, yet the call reports the uninitialized-store
message, not a dependency-read failure wrapping the underlying error —
because the code tests `configPrefix == ""` before `err != nil` and a
failed query leaves the scanned destination empty. -/
theorem createIssueImport_config_error_cex :
    cfgErrEnv.configRead.err = some (ScanErr.other (GoError.msg "disk I/O error")) ∧
    (CreateIssueImport cfgErrEnv issueClosed "alice" false).result =
      some (GoError.msg "database not initialized: issue_prefix config is missing (run 'bd init --prefix <prefix>' first)") ∧
    (∀ e, (CreateIssueImport cfgErrEnv issueClosed "alice" false).result ≠
      some (GoError.wrap "failed to get config" e)) := by
  have hres : (CreateIssueImport cfgErrEnv issueClosed "alice" false).result =
      some (GoError.msg "database not initialized: issue_prefix config is missing (run 'bd init --prefix <prefix>' first)") := by
    decide
  refine ⟨rfl, hres, ?_⟩
  intro e h
  rw [hres] at h
  simp at h

/-- C8 (amended): the dependency-read wrap `failed to get config` is
reported only when the config read error coexists with a non-empty scanned
value (possible only when the row was scanned and a later step such as
`rows.Close` failed); it is then distinct from the uninitialized-store
message. When the failed read leaves the scanned value empty — the usual
failure mode — the uninitialized-store error is reported instead (see the
counterexample). -/
theorem createIssueImport_config_error_wrap (env : Env) (issue : Issue) (actor : String)
    (skip : Bool) (ss ts : List String) (e : GoError)
    (hs : env.getCustomStatuses = Except.ok ss) (ht : env.getCustomTypes = Except.ok ts)
    (hv : env.validateWithCustom (repairIssue env issue) ss ts = none)
    (he : env.configRead.err = some (ScanErr.other e)) (hcs : env.configRead.scanned ≠ "") :
    (CreateIssueImport env issue actor skip).result = some (GoError.wrap "failed to get config" e) ∧
    (CreateIssueImport env issue actor skip).result ≠
      some (GoError.msg "database not initialized: issue_prefix config is missing (run 'bd init --prefix <prefix>' first)") := by
  rw [repairIssue] at hv
  have h1 : (CreateIssueImport env issue actor skip).result =
      some (GoError.wrap "failed to get config" e) := by
    simp [CreateIssueImport, hs, ht, hv, he, hcs]
  refine ⟨h1, ?_⟩
  rw [h1]
  simp

/-- An environment for the exotic reachable case of the config wrap: the
scan filled the destination, then the read still returned an error. -/
def cfgWrapEnv : Env :=
  { okEnv with configRead := ⟨"bd", some (ScanErr.other (GoError.msg "close failed"))⟩ }

/-- Witness for the amended C8. -/
theorem createIssueImport_config_error_wrap_witness :
    (CreateIssueImport cfgWrapEnv issueClosed "alice" false).result =
      some (GoError.wrap "failed to get config" (GoError.msg "close failed")) ∧
    (CreateIssueImport cfgWrapEnv issueClosed "alice" false).result ≠
      some (GoError.msg "database not initialized: issue_prefix config is missing (run 'bd init --prefix <prefix>' first)") :=
  createIssueImport_config_error_wrap cfgWrapEnv issueClosed "alice" false [] []
    (GoError.msg "close failed") rfl rfl rfl rfl (by decide)

/-- C4: an issue arriving with a non-empty ID whose prefix does not match
the effective prefix, with `skipPrefixValidation = false`, fails with the
prefix-validation wrap (distinct from the identifier-generation wrap) and
no insert, event or dirty-marker write occurs. -/
theorem createIssueImport_prefix_mismatch_fails (env : Env) (issue : Issue) (actor : String)
    (ss ts : List String)
    (hs : env.getCustomStatuses = Except.ok ss) (ht : env.getCustomTypes = Except.ok ts)
    (hv : env.validateWithCustom (repairIssue env issue) ss ts = none)
    (hce : env.configRead.err = none) (hcs : env.configRead.scanned ≠ "")
    (hid : issue.ID ≠ "")
    (hmis : List.isPrefixOf ((if issue.IDPrefix ≠ "" then env.configRead.scanned ++ "-" ++ issue.IDPrefix
        else env.configRead.scanned) ++ "-").data issue.ID.data = false) :
    (∃ e, (CreateIssueImport env issue actor false).result =
      some (GoError.wrap "failed to validate issue ID prefix" e)) ∧
    (∀ e2, (CreateIssueImport env issue actor false).result ≠
      some (GoError.wrap "failed to generate issue ID" e2)) ∧
    writeEffects (CreateIssueImport env issue actor false).trace = [] := by
  rw [reach_idPhase env issue actor false ss ts hs ht hv hce hcs]
  simp only [idPhase, prepareIssue_ID, prepareIssue_IDPrefix]
  rw [if_neg hid]
  simp only [ValidateIssueIDPrefix, hmis, Bool.false_eq_true, if_false]
  simp

/-- An issue whose supplied ID lives in a foreign namespace. -/
def issueMismatch : Issue := ⟨"zz-1", Status.StatusOpen, 3, 4, none, none, "h", ""⟩

/-- Witness for C4: importing `zz-1` into the `bd` namespace without the
skip flag fails the prefix validation and writes nothing. -/
theorem createIssueImport_prefix_mismatch_fails_witness :
    (∃ e, (CreateIssueImport okEnv issueMismatch "alice" false).result =
      some (GoError.wrap "failed to validate issue ID prefix" e)) ∧
    (∀ e2, (CreateIssueImport okEnv issueMismatch "alice" false).result ≠
      some (GoError.wrap "failed to generate issue ID" e2)) ∧
    writeEffects (CreateIssueImport okEnv issueMismatch "alice" false).trace = [] :=
  createIssueImport_prefix_mismatch_fails okEnv issueMismatch "alice" [] [] rfl rfl rfl rfl
    (by decide) (by decide) (by decide)

/-- C5: with `skipPrefixValidation = true` and a supplied non-empty ID, no
prefix check is performed at all — no prefix-validation collaborator call
appears in the trace, the call never fails with the prefix-validation wrap,
and execution proceeds to the strict-insert step. -/
theorem createIssueImport_skip_validation (env : Env) (issue : Issue) (actor : String)
    (ss ts : List String)
    (hs : env.getCustomStatuses = Except.ok ss) (ht : env.getCustomTypes = Except.ok ts)
    (hv : env.validateWithCustom (repairIssue env issue) ss ts = none)
    (hce : env.configRead.err = none) (hcs : env.configRead.scanned ≠ "")
    (hid : issue.ID ≠ "") :
    (∀ id p, Effect.validateID id p ∉ (CreateIssueImport env issue actor true).trace) ∧
    Effect.insert (prepareIssue env issue) ∈ (CreateIssueImport env issue actor true).trace ∧
    (∀ e, (CreateIssueImport env issue actor true).result ≠
      some (GoError.wrap "failed to validate issue ID prefix" e)) := by
  rw [reach_idPhase env issue actor true ss ts hs ht hv hce hcs]
  simp only [idPhase, prepareIssue_ID]
  rw [if_neg hid]
  simp only [if_true, ite_true]
  refine ⟨?_, persistPhase_insert_mem env (prepareIssue env issue) actor [], ?_⟩
  · intro id p
    exact persistPhase_no_validate env (prepareIssue env issue) actor [] id p (by simp)
  · intro e
    exact persistPhase_result_ne_validate env (prepareIssue env issue) actor [] e

/-- Witness for C5: the mismatched-ID issue of C4 imported with the skip
flag reaches the insert step without any prefix check. -/
theorem createIssueImport_skip_validation_witness :
    (∀ id p, Effect.validateID id p ∉ (CreateIssueImport okEnv issueMismatch "alice" true).trace) ∧
    Effect.insert (prepareIssue okEnv issueMismatch) ∈
      (CreateIssueImport okEnv issueMismatch "alice" true).trace ∧
    (∀ e, (CreateIssueImport okEnv issueMismatch "alice" true).result ≠
      some (GoError.wrap "failed to validate issue ID prefix" e)) :=
  createIssueImport_skip_validation okEnv issueMismatch "alice" [] [] rfl rfl rfl rfl
    (by decide) (by decide)

/-- C6: the effective prefix handed to the ID generator (for issues without
an ID) and to the prefix validator (for issues with one, when validation is
not skipped) is the configured base namespace when `IDPrefix` is empty, and
`base + "-" + IDPrefix` otherwise. -/
theorem createIssueImport_effective_namespace (env : Env) (issue : Issue) (actor : String)
    (skip : Bool) (ss ts : List String)
    (hs : env.getCustomStatuses = Except.ok ss) (ht : env.getCustomTypes = Except.ok ts)
    (hv : env.validateWithCustom (repairIssue env issue) ss ts = none)
    (hce : env.configRead.err = none) (hcs : env.configRead.scanned ≠ "") :
    (issue.ID = "" →
      Effect.generateID (if issue.IDPrefix = "" then env.configRead.scanned
        else env.configRead.scanned ++ "-" ++ issue.IDPrefix) ∈
        (CreateIssueImport env issue actor skip).trace) ∧
    (issue.ID ≠ "" → skip = false →
      Effect.validateID issue.ID (if issue.IDPrefix = "" then env.configRead.scanned
        else env.configRead.scanned ++ "-" ++ issue.IDPrefix) ∈
        (CreateIssueImport env issue actor skip).trace) := by
  rw [reach_idPhase env issue actor skip ss ts hs ht hv hce hcs]
  have hpfx : (if issue.IDPrefix ≠ "" then env.configRead.scanned ++ "-" ++ issue.IDPrefix
      else env.configRead.scanned) =
      (if issue.IDPrefix = "" then env.configRead.scanned
      else env.configRead.scanned ++ "-" ++ issue.IDPrefix) := by
    by_cases hp : issue.IDPrefix = "" <;> simp [hp]
  simp only [idPhase, prepareIssue_ID, prepareIssue_IDPrefix, hpfx]
  constructor
  · intro hid
    rw [if_pos hid]
    rcases hg : env.generateIssueID (if issue.IDPrefix = "" then env.configRead.scanned
        else env.configRead.scanned ++ "-" ++ issue.IDPrefix) with e | g
    · simp [hg]
    · simp only [hg]
      exact persistPhase_trace_mem_mono env _ actor _ _ (by simp)
  · intro hid hskip
    rw [if_neg hid]
    subst hskip
    simp only [Bool.false_eq_true, if_false]
    rcases hvp : ValidateIssueIDPrefix issue.ID (if issue.IDPrefix = "" then env.configRead.scanned
        else env.configRead.scanned ++ "-" ++ issue.IDPrefix) with _ | e
    · simp only [hvp]
      exact persistPhase_trace_mem_mono env _ actor _ _ (by simp)
    · simp [hvp]

/-- Witness for C6: an issue without an ID gets its ID generated under the
base namespace `bd`. -/
theorem createIssueImport_effective_namespace_witness :
    (issueClosed.ID = "" →
      Effect.generateID (if issueClosed.IDPrefix = "" then okEnv.configRead.scanned
        else okEnv.configRead.scanned ++ "-" ++ issueClosed.IDPrefix) ∈
        (CreateIssueImport okEnv issueClosed "alice" false).trace) ∧
    (issueClosed.ID ≠ "" → false = false →
      Effect.validateID issueClosed.ID (if issueClosed.IDPrefix = "" then okEnv.configRead.scanned
        else okEnv.configRead.scanned ++ "-" ++ issueClosed.IDPrefix) ∈
        (CreateIssueImport okEnv issueClosed "alice" false).trace) :=
  createIssueImport_effective_namespace okEnv issueClosed "alice" false [] [] rfl rfl rfl rfl
    (by decide)

/-- C7: for every call that reaches the persistence phase — whether the
issue arrived with an accepted or skip-validated explicit ID (`i` is then
the prepared issue) or arrived without one and the generator succeeded
(`i` is then the prepared issue carrying the generated ID) — the three
persistence writes happen in the fixed order strict insert, audit event,
dirty marker; a failing step aborts the call with a wrap naming that step
and no later write is attempted — in particular an insert collision leaves
no event and no marker. -/
theorem createIssueImport_persistence_order (env : Env) (issue : Issue) (actor : String)
    (skip : Bool) (ss ts : List String) (i : Issue) (g : String)
    (hs : env.getCustomStatuses = Except.ok ss) (ht : env.getCustomTypes = Except.ok ts)
    (hv : env.validateWithCustom (repairIssue env issue) ss ts = none)
    (hce : env.configRead.err = none) (hcs : env.configRead.scanned ≠ "")
    (hreach :
      (issue.ID ≠ "" ∧ (skip = true ∨ ValidateIssueIDPrefix issue.ID
        (if issue.IDPrefix ≠ "" then env.configRead.scanned ++ "-" ++ issue.IDPrefix
          else env.configRead.scanned) = none) ∧ i = prepareIssue env issue) ∨
      (issue.ID = "" ∧ env.generateIssueID
        (if issue.IDPrefix ≠ "" then env.configRead.scanned ++ "-" ++ issue.IDPrefix
          else env.configRead.scanned) = Except.ok g ∧
        i = { prepareIssue env issue with ID := g })) :
    (∀ e, env.insertIssueStrict i = some e →
      (CreateIssueImport env issue actor skip).result =
        some (GoError.wrap "failed to insert issue" e) ∧
      writeEffects (CreateIssueImport env issue actor skip).trace =
        [Effect.insert i]) ∧
    (env.insertIssueStrict i = none →
      ∀ e, env.recordCreatedEvent i actor = some e →
      (CreateIssueImport env issue actor skip).result =
        some (GoError.wrap "failed to record creation event" e) ∧
      writeEffects (CreateIssueImport env issue actor skip).trace =
        [Effect.insert i, Effect.recordEvent i.ID actor]) ∧
    (env.insertIssueStrict i = none →
      env.recordCreatedEvent i actor = none →
      ∀ e, env.markDirty i.ID = some e →
      (CreateIssueImport env issue actor skip).result =
        some (GoError.wrap "failed to mark issue dirty" e) ∧
      writeEffects (CreateIssueImport env issue actor skip).trace =
        [Effect.insert i, Effect.recordEvent i.ID actor, Effect.markDirty i.ID]) ∧
    (env.insertIssueStrict i = none →
      env.recordCreatedEvent i actor = none →
      env.markDirty i.ID = none →
      (CreateIssueImport env issue actor skip).result = none ∧
      writeEffects (CreateIssueImport env issue actor skip).trace =
        [Effect.insert i, Effect.recordEvent i.ID actor, Effect.markDirty i.ID]) := by
  rw [reach_idPhase env issue actor skip ss ts hs ht hv hce hcs]
  rcases hreach with ⟨hid, hvp, hi⟩ | ⟨hid, hg, hi⟩
  · subst hi
    rcases hvp with hskip | hvnone
    · subst hskip
      simp only [idPhase, prepareIssue_ID]
      rw [if_neg hid]
      simp only [if_true, ite_true]
      simpa using persistPhase_cases env (prepareIssue env issue) actor [] rfl
    · rcases hb : skip with _ | _
      · simp only [idPhase, prepareIssue_ID, prepareIssue_IDPrefix]
        rw [if_neg hid]
        simp only [Bool.false_eq_true, if_false]
        simp only [hvnone]
        simpa using persistPhase_cases env (prepareIssue env issue) actor
          [Effect.validateID issue.ID (if issue.IDPrefix ≠ "" then
            env.configRead.scanned ++ "-" ++ issue.IDPrefix else env.configRead.scanned)] (by simp)
      · simp only [idPhase, prepareIssue_ID]
        rw [if_neg hid]
        simp only [if_true, ite_true]
        simpa using persistPhase_cases env (prepareIssue env issue) actor [] rfl
  · subst hi
    simp only [idPhase, prepareIssue_ID, prepareIssue_IDPrefix]
    rw [if_pos hid]
    simp only [hg]
    simpa using persistPhase_cases env { prepareIssue env issue with ID := g } actor
      [Effect.generateID (if issue.IDPrefix ≠ "" then
        env.configRead.scanned ++ "-" ++ issue.IDPrefix else env.configRead.scanned)] (by simp)

/-- An environment whose strict insert reports an ID collision. -/
def collEnv : Env :=
  { okEnv with insertIssueStrict := fun _ => some (GoError.msg "UNIQUE constraint failed: issues.id") }

/-- An issue arriving with an explicit in-namespace ID. -/
def issueDup : Issue := ⟨"bd-7", Status.StatusOpen, 3, 4, none, none, "h", ""⟩

/-- Witness for C7: an issue arriving without an ID gets `bd-1` generated,
and the colliding insert wraps the insert failure while writing neither
event nor marker. -/
theorem createIssueImport_persistence_order_witness :
    (∀ e, collEnv.insertIssueStrict { prepareIssue collEnv issueClosed with ID := "bd-1" } = some e →
      (CreateIssueImport collEnv issueClosed "alice" false).result =
        some (GoError.wrap "failed to insert issue" e) ∧
      writeEffects (CreateIssueImport collEnv issueClosed "alice" false).trace =
        [Effect.insert { prepareIssue collEnv issueClosed with ID := "bd-1" }]) ∧
    (collEnv.insertIssueStrict { prepareIssue collEnv issueClosed with ID := "bd-1" } = none →
      ∀ e, collEnv.recordCreatedEvent { prepareIssue collEnv issueClosed with ID := "bd-1" } "alice" = some e →
      (CreateIssueImport collEnv issueClosed "alice" false).result =
        some (GoError.wrap "failed to record creation event" e) ∧
      writeEffects (CreateIssueImport collEnv issueClosed "alice" false).trace =
        [Effect.insert { prepareIssue collEnv issueClosed with ID := "bd-1" },
          Effect.recordEvent ({ prepareIssue collEnv issueClosed with ID := "bd-1" } : Issue).ID "alice"]) ∧
    (collEnv.insertIssueStrict { prepareIssue collEnv issueClosed with ID := "bd-1" } = none →
      collEnv.recordCreatedEvent { prepareIssue collEnv issueClosed with ID := "bd-1" } "alice" = none →
      ∀ e, collEnv.markDirty ({ prepareIssue collEnv issueClosed with ID := "bd-1" } : Issue).ID = some e →
      (CreateIssueImport collEnv issueClosed "alice" false).result =
        some (GoError.wrap "failed to mark issue dirty" e) ∧
      writeEffects (CreateIssueImport collEnv issueClosed "alice" false).trace =
        [Effect.insert { prepareIssue collEnv issueClosed with ID := "bd-1" },
          Effect.recordEvent ({ prepareIssue collEnv issueClosed with ID := "bd-1" } : Issue).ID "alice",
          Effect.markDirty ({ prepareIssue collEnv issueClosed with ID := "bd-1" } : Issue).ID]) ∧
    (collEnv.insertIssueStrict { prepareIssue collEnv issueClosed with ID := "bd-1" } = none →
      collEnv.recordCreatedEvent { prepareIssue collEnv issueClosed with ID := "bd-1" } "alice" = none →
      collEnv.markDirty ({ prepareIssue collEnv issueClosed with ID := "bd-1" } : Issue).ID = none →
      (CreateIssueImport collEnv issueClosed "alice" false).result = none ∧
      writeEffects (CreateIssueImport collEnv issueClosed "alice" false).trace =
        [Effect.insert { prepareIssue collEnv issueClosed with ID := "bd-1" },
          Effect.recordEvent ({ prepareIssue collEnv issueClosed with ID := "bd-1" } : Issue).ID "alice",
          Effect.markDirty ({ prepareIssue collEnv issueClosed with ID := "bd-1" } : Issue).ID]) :=
  createIssueImport_persistence_order collEnv issueClosed "alice" false [] []
    { prepareIssue collEnv issueClosed with ID := "bd-1" } "bd-1" rfl rfl rfl rfl (by decide)
    (Or.inr ⟨rfl, rfl, rfl⟩)

/-- C10: when the call fails at the config-read step or any later step, the
caller's issue value keeps every in-place mutation applied before the
failing step: always the defaulted timestamps, the repaired `ClosedAt` and
`DeletedAt` and the computed `ContentHash`; an issue that arrived with an
explicit ID keeps exactly that prepared value; an issue whose ID generation
succeeded before a later failure keeps the assigned ID; a failure at the
config read or at generation itself leaves the prepared value with the
original ID. The error path never restores the input value. -/
theorem createIssueImport_mutations_retained (env : Env) (issue : Issue) (actor : String)
    (skip : Bool) (ss ts : List String)
    (hs : env.getCustomStatuses = Except.ok ss) (ht : env.getCustomTypes = Except.ok ts)
    (hv : env.validateWithCustom (repairIssue env issue) ss ts = none)
    (_hfail : (CreateIssueImport env issue actor skip).result ≠ none) :
    (CreateIssueImport env issue actor skip).issue.CreatedAt = (prepareIssue env issue).CreatedAt ∧
    (CreateIssueImport env issue actor skip).issue.UpdatedAt = (prepareIssue env issue).UpdatedAt ∧
    (CreateIssueImport env issue actor skip).issue.ClosedAt = (prepareIssue env issue).ClosedAt ∧
    (CreateIssueImport env issue actor skip).issue.DeletedAt = (prepareIssue env issue).DeletedAt ∧
    (CreateIssueImport env issue actor skip).issue.ContentHash = (prepareIssue env issue).ContentHash ∧
    (issue.ID ≠ "" → (CreateIssueImport env issue actor skip).issue = prepareIssue env issue) ∧
    (env.configRead.err = some ScanErr.noRows ∨ env.configRead.scanned = "" ∨
      (∃ e, env.configRead.err = some (ScanErr.other e)) →
      (CreateIssueImport env issue actor skip).issue = prepareIssue env issue) ∧
    (env.configRead.err = none → env.configRead.scanned ≠ "" → issue.ID = "" →
      ∀ g, env.generateIssueID (if issue.IDPrefix ≠ "" then
          env.configRead.scanned ++ "-" ++ issue.IDPrefix else env.configRead.scanned) =
        Except.ok g →
      (CreateIssueImport env issue actor skip).issue = { prepareIssue env issue with ID := g }) ∧
    (env.configRead.err = none → env.configRead.scanned ≠ "" → issue.ID = "" →
      ∀ e, env.generateIssueID (if issue.IDPrefix ≠ "" then
          env.configRead.scanned ++ "-" ++ issue.IDPrefix else env.configRead.scanned) =
        Except.error e →
      (CreateIssueImport env issue actor skip).issue = prepareIssue env issue) := by
  have hshape := issue_shape_after_validation env issue actor skip ss ts hs ht hv
  have hfields : (CreateIssueImport env issue actor skip).issue.CreatedAt = (prepareIssue env issue).CreatedAt ∧
      (CreateIssueImport env issue actor skip).issue.UpdatedAt = (prepareIssue env issue).UpdatedAt ∧
      (CreateIssueImport env issue actor skip).issue.ClosedAt = (prepareIssue env issue).ClosedAt ∧
      (CreateIssueImport env issue actor skip).issue.DeletedAt = (prepareIssue env issue).DeletedAt ∧
      (CreateIssueImport env issue actor skip).issue.ContentHash = (prepareIssue env issue).ContentHash := by
    rcases hshape with h | ⟨g, _, h⟩ <;> rw [h] <;> exact ⟨rfl, rfl, rfl, rfl, rfl⟩
  obtain ⟨h1, h2, h3, h4, h5⟩ := hfields
  refine ⟨h1, h2, h3, h4, h5, ?_, ?_, ?_, ?_⟩
  · intro hid
    exact final_issue_explicit env issue actor skip ss ts hs ht hv hid
  · intro hcfg
    exact final_issue_config_failure env issue actor skip ss ts hs ht hv hcfg
  · intro hce hcs hid g hg
    exact final_issue_generated env issue actor skip ss ts g hs ht hv hce hcs hid hg
  · intro hce hcs hid e hg
    exact final_issue_genfail env issue actor skip ss ts e hs ht hv hce hcs hid hg

/-- Witness for C10: the collision environment generates `bd-1` for an
issue without an ID, the insert fails, and the failed call returns the
prepared issue value carrying the generated ID. -/
theorem createIssueImport_mutations_retained_witness :
    (CreateIssueImport collEnv issueClosed "alice" false).issue.CreatedAt =
      (prepareIssue collEnv issueClosed).CreatedAt ∧
    (CreateIssueImport collEnv issueClosed "alice" false).issue.UpdatedAt =
      (prepareIssue collEnv issueClosed).UpdatedAt ∧
    (CreateIssueImport collEnv issueClosed "alice" false).issue.ClosedAt =
      (prepareIssue collEnv issueClosed).ClosedAt ∧
    (CreateIssueImport collEnv issueClosed "alice" false).issue.DeletedAt =
      (prepareIssue collEnv issueClosed).DeletedAt ∧
    (CreateIssueImport collEnv issueClosed "alice" false).issue.ContentHash =
      (prepareIssue collEnv issueClosed).ContentHash ∧
    (issueClosed.ID ≠ "" →
      (CreateIssueImport collEnv issueClosed "alice" false).issue = prepareIssue collEnv issueClosed) ∧
    (collEnv.configRead.err = some ScanErr.noRows ∨ collEnv.configRead.scanned = "" ∨
      (∃ e, collEnv.configRead.err = some (ScanErr.other e)) →
      (CreateIssueImport collEnv issueClosed "alice" false).issue = prepareIssue collEnv issueClosed) ∧
    (collEnv.configRead.err = none → collEnv.configRead.scanned ≠ "" → issueClosed.ID = "" →
      ∀ g, collEnv.generateIssueID (if issueClosed.IDPrefix ≠ "" then
          collEnv.configRead.scanned ++ "-" ++ issueClosed.IDPrefix else collEnv.configRead.scanned) =
        Except.ok g →
      (CreateIssueImport collEnv issueClosed "alice" false).issue =
        { prepareIssue collEnv issueClosed with ID := g }) ∧
    (collEnv.configRead.err = none → collEnv.configRead.scanned ≠ "" → issueClosed.ID = "" →
      ∀ e, collEnv.generateIssueID (if issueClosed.IDPrefix ≠ "" then
          collEnv.configRead.scanned ++ "-" ++ issueClosed.IDPrefix else collEnv.configRead.scanned) =
        Except.error e →
      (CreateIssueImport collEnv issueClosed "alice" false).issue = prepareIssue collEnv issueClosed) :=
  createIssueImport_mutations_retained collEnv issueClosed "alice" false [] [] rfl rfl rfl
    (by decide)
